import Mathlib

/-!
Shallow embedding of parts of the GridPath model-assembly code, used to
settle claims about the dynamic-component registration pattern, the
temporal-index path construction, the transmission-target balance module,
the static-load-requirement module, and the PRM requirement CSV loader.

Each definition is translated from the corresponding Python source file;
Pyomo model objects become explicit Lean structures, floats become
rationals (with `Option ℚ` representing possibly-infinite values, `none`
standing for `float("inf")`), and code that can raise becomes
`Except`-valued.
-/

namespace GridPath

/-! ## Dynamic components (C1)

`gridpath/auxiliary/dynamic_components.py` holds a `DynamicComponents`
object whose attributes are shared mutable lists.  The two registration
functions embedded here are
`gridpath/system/load_balance/static_load_requirement.record_dynamic_components`
and
`modules/generation_and_storage/operations/reserves/lf_reserves_down.determine_dynamic_components`.
-/

/-- The shared dynamic-components object `d`: the attribute lists the two
modules under study touch.  `footroom_variables` is the dict from resource
name to its list of footroom variable names, modelled as an association
list. -/
structure DynamicComponents where
  load_balance_consumption_components : List String
  required_reserve_modules : List String
  footroom_variables : List (String × List String)
deriving Repr, DecidableEq

/-- Function `static_load_requirement.record_dynamic_components`: appends
`"LZ_Load_in_Tmp"` to `d.load_balance_consumption_components`. -/
def record_dynamic_components (d : DynamicComponents) : DynamicComponents :=
  { d with
    load_balance_consumption_components :=
      d.load_balance_consumption_components ++ ["LZ_Load_in_Tmp"] }

/-- A parsed row of `resources.tab` as read by
`lf_reserves_down.determine_dynamic_components`: the `RESOURCES` column and
the `lf_reserves_down_zone` column (`"."` means no zone specified). -/
structure ResourceRow where
  generator : String
  lf_reserves_down_zone : String
deriving Repr, DecidableEq

/-- Update of an association list at a key (Python dict assignment):
replaces the value at the first occurrence of the key, or appends a new
entry when the key is absent. -/
def assocSet (m : List (String × List String)) (k : String) (v : List String) :
    List (String × List String) :=
  match m with
  | [] => [(k, v)]
  | (k', v') :: rest =>
      if k' = k then (k, v) :: rest else (k', v') :: assocSet rest k v

/-- The per-row body of the loop in
`lf_reserves_down.determine_dynamic_components`: ensure the generator has a
`footroom_variables` entry, then append `"Provide_LF_Reserves_Down_MW"`
when a reserve zone is specified (`lf_reserves_down_zone != "."`). -/
def processResourceRow (d : DynamicComponents) (row : ResourceRow) :
    DynamicComponents :=
  let d :=
    if (d.footroom_variables.lookup row.generator).isNone then
      { d with footroom_variables := assocSet d.footroom_variables row.generator [] }
    else d
  if row.lf_reserves_down_zone ≠ "." then
    { d with
      footroom_variables :=
        assocSet d.footroom_variables row.generator
          (((d.footroom_variables.lookup row.generator).getD []) ++
            ["Provide_LF_Reserves_Down_MW"]) }
  else d

/-- Function `lf_reserves_down.determine_dynamic_components`: appends
`"lf_reserves_down"` to `d.required_reserve_modules`, then walks the rows
of `resources.tab` updating `d.footroom_variables`. -/
def determine_dynamic_components (d : DynamicComponents)
    (resourceRows : List ResourceRow) : DynamicComponents :=
  let d :=
    { d with
      required_reserve_modules := d.required_reserve_modules ++ ["lf_reserves_down"] }
  resourceRows.foldl processResourceRow d

/-! ## Input-file path construction (C2)

Each loader builds its `.tab` path with `os.path.join`; we record the
exact list of components each one passes, in order. -/

/-- Path components of the `load_mw.tab` file in
`static_load_requirement.load_model_data`. -/
def static_load_requirement.load_mw_path (scenario_directory weather_iteration
    hydro_iteration availability_iteration subproblem stage : String) :
    List String :=
  [scenario_directory, weather_iteration, hydro_iteration,
   availability_iteration, subproblem, stage, "inputs", "load_mw.tab"]

/-- Path components of the `load_level_defaults.tab` file in
`static_load_requirement.load_model_data`. -/
def static_load_requirement.load_level_defaults_path (scenario_directory
    weather_iteration hydro_iteration availability_iteration subproblem
    stage : String) : List String :=
  [scenario_directory, weather_iteration, hydro_iteration,
   availability_iteration, subproblem, stage, "inputs",
   "load_level_defaults.tab"]

/-- Path components of the `carbon_cap_zones.tab` file in
`carbon_cap_zones.load_model_data`: only `horizon` and `stage` index the
directory. -/
def carbon_cap_zones.load_model_data_path (scenario_directory horizon
    stage : String) : List String :=
  [scenario_directory, horizon, stage, "inputs", "carbon_cap_zones.tab"]

/-- Path components of the `project_availability_exogenous.tab` file in
`exogenous.load_module_specific_data`: only `subproblem` and `stage` index
the directory. -/
def exogenous.load_module_specific_data_path (scenario_directory subproblem
    stage : String) : List String :=
  [scenario_directory, subproblem, stage, "inputs",
   "project_availability_exogenous.tab"]

/-- The path shape the spec claims every loader uses: the scenario
directory followed by all five temporal index values (weather, hydro,
availability iterations, subproblem, stage), then `"inputs"` and the file
name.  This definition follows the spec's words, for comparison with the
per-loader definitions taken from the source. -/
def specClaimedPath (scenario_directory weather_iteration hydro_iteration
    availability_iteration subproblem stage fname : String) : List String :=
  [scenario_directory, weather_iteration, hydro_iteration,
   availability_iteration, subproblem, stage, "inputs", fname]

/-! ## Transmission-target balance (C3, C7)

Embedding of
`gridpath/system/policy/transmission_targets/transmission_target_balance.py`.
The indexed Pyomo components become functions out of the index type; a
Pyomo `Constraint` rule result is either `Skip` or an inequality
`lhs ≥ rhs`. -/

/-- Result of a Pyomo constraint rule: either `Constraint.Skip` or the
inequality `lhs ≥ rhs` recorded by its two sides. -/
inductive PyomoConstraint where
  | Skip : PyomoConstraint
  | GeqIneq (lhs rhs : ℚ) : PyomoConstraint
deriving Repr, DecidableEq

/-- Transmission-target zone / balancing type / horizon index. -/
abbrev TxIdx := String × String × Nat

/-- The model state `m` as seen by
`transmission_target_balance.add_model_components` and `export_results`:
the index set, the input parameters, the shortage variables (with the
value the solver gave them), and the total-energy expressions defined by
the upstream aggregation module. -/
structure TxModel where
  TRANSMISSION_TARGET_ZONE_BLN_TYPE_HRZS_WITH_TRANSMISSION_TARGET : List TxIdx
  transmission_target_allow_violation : String → Bool
  transmission_target_pos_dir_min_mwh : TxIdx → ℚ
  transmission_target_neg_dir_min_mwh : TxIdx → ℚ
  Transmission_Target_Shortage_Pos_Dir_MWh : TxIdx → ℚ
  Transmission_Target_Shortage_Neg_Dir_MWh : TxIdx → ℚ
  Total_Transmission_Target_Energy_Pos_Dir_MWh : TxIdx → ℚ
  Total_Transmission_Target_Energy_Neg_Dir_MWh : TxIdx → ℚ

/-- Rule `violation_pos_dir_expression_rule`: the shortage variable when the
zone allows violation, `0` otherwise. -/
def violation_pos_dir_expression_rule (mod : TxModel) (z : String)
    (bt : String) (hz : Nat) : ℚ :=
  if mod.transmission_target_allow_violation z then
    mod.Transmission_Target_Shortage_Pos_Dir_MWh (z, bt, hz)
  else 0

/-- Rule `violation_neg_dir_expression_rule`: the shortage variable when the
zone allows violation, `0` otherwise. -/
def violation_neg_dir_expression_rule (mod : TxModel) (z : String)
    (bt : String) (hz : Nat) : ℚ :=
  if mod.transmission_target_allow_violation z then
    mod.Transmission_Target_Shortage_Neg_Dir_MWh (z, bt, hz)
  else 0

/-- The `Transmission_Target_Shortage_Pos_Dir_MWh_Expression` component:
the positive-direction violation expression at each index. -/
def Transmission_Target_Shortage_Pos_Dir_MWh_Expression (mod : TxModel)
    (idx : TxIdx) : ℚ :=
  violation_pos_dir_expression_rule mod idx.1 idx.2.1 idx.2.2

/-- The `Transmission_Target_Shortage_Neg_Dir_MWh_Expression` component:
the negative-direction violation expression at each index. -/
def Transmission_Target_Shortage_Neg_Dir_MWh_Expression (mod : TxModel)
    (idx : TxIdx) : ℚ :=
  violation_neg_dir_expression_rule mod idx.1 idx.2.1 idx.2.2

/-- Rule `transmission_target_pos_dir_rule`: skip when the positive-direction
target is `0`, otherwise require delivered energy plus the shortage
expression to reach the target. -/
def transmission_target_pos_dir_rule (mod : TxModel) (z : String)
    (bt : String) (hz : Nat) : PyomoConstraint :=
  if mod.transmission_target_pos_dir_min_mwh (z, bt, hz) = 0 then
    PyomoConstraint.Skip
  else
    PyomoConstraint.GeqIneq
      (mod.Total_Transmission_Target_Energy_Pos_Dir_MWh (z, bt, hz) +
        Transmission_Target_Shortage_Pos_Dir_MWh_Expression mod (z, bt, hz))
      (mod.transmission_target_pos_dir_min_mwh (z, bt, hz))

/-- Rule `transmission_target_neg_dir_rule`: skip when the negative-direction
target is `0`, otherwise require delivered energy plus the shortage
expression to reach the target. -/
def transmission_target_neg_dir_rule (mod : TxModel) (z : String)
    (bt : String) (hz : Nat) : PyomoConstraint :=
  if mod.transmission_target_neg_dir_min_mwh (z, bt, hz) = 0 then
    PyomoConstraint.Skip
  else
    PyomoConstraint.GeqIneq
      (mod.Total_Transmission_Target_Energy_Neg_Dir_MWh (z, bt, hz) +
        Transmission_Target_Shortage_Neg_Dir_MWh_Expression mod (z, bt, hz))
      (mod.transmission_target_neg_dir_min_mwh (z, bt, hz))

/-- The `Transmission_Target_Pos_Dir_Constraint` component: the rule
applied at each index of the target set. -/
def Transmission_Target_Pos_Dir_Constraint (mod : TxModel) (idx : TxIdx) :
    PyomoConstraint :=
  transmission_target_pos_dir_rule mod idx.1 idx.2.1 idx.2.2

/-- The `Transmission_Target_Neg_Dir_Constraint` component: the rule
applied at each index of the target set. -/
def Transmission_Target_Neg_Dir_Constraint (mod : TxModel) (idx : TxIdx) :
    PyomoConstraint :=
  transmission_target_neg_dir_rule mod idx.1 idx.2.1 idx.2.2

/-- Division that records the division-by-zero failure mode explicitly:
`error` when the divisor is zero, the quotient otherwise.  Used to express
that the guarded divisions in `export_results` are never reached with a
zero divisor. -/
def checkedDiv (a b : ℚ) : Except String ℚ :=
  if b = 0 then Except.error "division by zero" else Except.ok (a / b)

/-- The `fraction_of_transmission_target_pos_dir_min_met` entry computed
for one index in `transmission_target_balance.export_results`: `1` when
the positive-direction target is `0`, else delivered energy divided by the
target (division made explicit via `checkedDiv`). -/
def fraction_of_transmission_target_pos_dir_min_met (mod : TxModel)
    (idx : TxIdx) : Except String ℚ :=
  if mod.transmission_target_pos_dir_min_mwh idx = 0 then Except.ok 1
  else
    checkedDiv (mod.Total_Transmission_Target_Energy_Pos_Dir_MWh idx)
      (mod.transmission_target_pos_dir_min_mwh idx)

/-- The `fraction_of_transmission_target_neg_dir_met` entry computed for
one index in `transmission_target_balance.export_results`. -/
def fraction_of_transmission_target_neg_dir_met (mod : TxModel)
    (idx : TxIdx) : Except String ℚ :=
  if mod.transmission_target_neg_dir_min_mwh idx = 0 then Except.ok 1
  else
    checkedDiv (mod.Total_Transmission_Target_Energy_Neg_Dir_MWh idx)
      (mod.transmission_target_neg_dir_min_mwh idx)

/-! ## Static load requirement model components (C4, C6)

Embedding of the model side of
`gridpath/system/load_balance/static_load_requirement.py`.  Load values
live in `Option ℚ` with `none` standing for `float("inf")`; parameter data
that may be absent is an outer `Option`.  Accessing
`component_static_load_mw` can raise (the default callback
`set_default_and_warn_about_undefined_loads` raises a `ValueError` when
`load_level_default` was left at its infinite default), so the accessor is
`Except`-valued. -/

/-- A possibly-infinite nonnegative load value: `none` is `float("inf")`. -/
abbrev LoadVal := Option ℚ

/-- The model state `m` for the static-load module: the index sets and the
raw parameter data behind `component_static_load_mw` and
`load_level_default`.  `load_data idx = none` means no value was provided
for `component_static_load_mw` at `idx`; `default_data (lz, cmp) = none`
means `load_level_default` was left at its `float("inf")` initialize
value. -/
structure StaticLoadModel where
  LOAD_ZONES : List String
  TMPS : List Nat
  LOAD_ZONE_TMP_LOAD_CMPNTS : List (String × Nat × String)
  load_data : String × Nat × String → Option LoadVal
  default_data : String × String → LoadVal

/-- Parameter `load_level_default`: the parameter value, with `none` the infinite
default. -/
def load_level_default (mod : StaticLoadModel) (lz cmp : String) : LoadVal :=
  mod.default_data (lz, cmp)

/-- Function `check_for_value_and_raise_value_error` specialised as it is used: the
default callback raises a `ValueError` when `load_level_default` equals
`float("inf")`. -/
def check_for_value_and_raise_value_error (param : LoadVal)
    (value_to_check : LoadVal) (msg : String) : Except String Unit :=
  if param = value_to_check then Except.error msg else Except.ok ()

/-- Callback `set_default_and_warn_about_undefined_loads`: raise when
`load_level_default[lz, cmp]` is infinite, otherwise return it. -/
def set_default_and_warn_about_undefined_loads (mod : StaticLoadModel)
    (lz : String) (_tmp : Nat) (cmp : String) : Except String LoadVal :=
  match check_for_value_and_raise_value_error (load_level_default mod lz cmp)
      none "component_static_load_mw has no value defined" with
  | Except.error e => Except.error e
  | Except.ok () => Except.ok (load_level_default mod lz cmp)

/-- Access to `component_static_load_mw` at an index: the provided value
when one was loaded, otherwise the default callback (which can raise). -/
def component_static_load_mw (mod : StaticLoadModel)
    (idx : String × Nat × String) : Except String LoadVal :=
  match mod.load_data idx with
  | some v => Except.ok v
  | none => set_default_and_warn_about_undefined_loads mod idx.1 idx.2.1 idx.2.2

/-- One step of the loop body of `total_static_load_from_components_init`:
access the parameter (which can raise), raise when its value is infinite,
and otherwise add it to the running sum when the entry belongs to the
requested load zone and timepoint. -/
def static_load_step (mod : StaticLoadModel) (lz : String) (tmp : Nat)
    (acc : Except String ℚ) (entry : String × Nat × String) :
    Except String ℚ :=
  match acc with
  | Except.error e => Except.error e
  | Except.ok s =>
      match component_static_load_mw mod entry with
      | Except.error e => Except.error e
      | Except.ok none =>
          Except.error "component_static_load_mw has no value defined"
      | Except.ok (some v) =>
          if entry.1 = lz ∧ entry.2.1 = tmp then Except.ok (s + v)
          else Except.ok s

/-- Function `total_static_load_from_components_init`: iterate over ALL of
`LOAD_ZONE_TMP_LOAD_CMPNTS`, raising if any entry's
`component_static_load_mw` is infinite, and summing the entries matching
`(lz, tmp)`. -/
def total_static_load_from_components_init (mod : StaticLoadModel)
    (lz : String) (tmp : Nat) : Except String ℚ :=
  mod.LOAD_ZONE_TMP_LOAD_CMPNTS.foldl (static_load_step mod lz tmp)
    (Except.ok 0)

/-- The `LZ_Load_in_Tmp` expression at `(lz, tmp)`. -/
def LZ_Load_in_Tmp (mod : StaticLoadModel) (lz : String) (tmp : Nat) :
    Except String ℚ :=
  total_static_load_from_components_init mod lz tmp

/-- An entry of `LOAD_ZONE_TMP_LOAD_CMPNTS` is "infinite" when the
parameter access at it does not yield a finite value: either the default
callback raises (value unprovided, default left infinite) or the value is
`float("inf")` itself. -/
def componentIsInfinite (mod : StaticLoadModel)
    (idx : String × Nat × String) : Bool :=
  match component_static_load_mw mod idx with
  | Except.ok (some _) => false
  | _ => true

/-- The finite value of `component_static_load_mw` at an index, `0` when
the access fails or is infinite (used only to state sums over entries
already known to be finite). -/
def componentFiniteValue (mod : StaticLoadModel)
    (idx : String × Nat × String) : ℚ :=
  match component_static_load_mw mod idx with
  | Except.ok (some v) => v
  | _ => 0

/-! ### export_results of the static-load module (C4) -/

/-- The rows built by `static_load_requirement.export_results`: one row
`[lz, tmp, LZ_Load_in_Tmp[lz, tmp]]` for each `lz` in `LOAD_ZONES` and
each `tmp` in `TMPS`, in nested-loop order.  The expression's value is
taken from a given valuation `loadVal` (the solved expression values). -/
def export_results_data (LOAD_ZONES : List String) (TMPS : List Nat)
    (loadVal : String → Nat → ℚ) : List (String × Nat × ℚ) :=
  LOAD_ZONES.flatMap fun lz => TMPS.map fun tmp => (lz, tmp, loadVal lz tmp)

/-- Function `create_results_df` for this module: the results dataframe as a map
from the `(load_zone, timepoint)` index to the `static_load_mw` column,
realised as lookup of the first row with that index. -/
def create_results_df (data : List (String × Nat × ℚ)) (lz : String)
    (tmp : Nat) : Option ℚ :=
  (data.find? fun row => row.1 == lz && row.2.1 == tmp).map fun row => row.2.2

/-- The update `getattr(d, LOAD_ZONE_TMP_DF).update(results_df)` restricted to the
`static_load_mw` column: the column was first reset to `None`, so after
the update the shared dataframe holds the results value wherever
`results_df` has one, and `None` elsewhere. -/
def updated_load_zone_tmp_df (data : List (String × Nat × ℚ)) (lz : String)
    (tmp : Nat) : Option ℚ :=
  match create_results_df data lz tmp with
  | some v => some v
  | none => none

/-! ## get_inputs_from_database of the static-load module (C5)

Embedding of the SQL query in
`static_load_requirement.get_inputs_from_database`.  Tables are lists of
rows; `INNER JOIN ... USING (col)` is a nested-loop join keeping the pairs
agreeing on the column; the scalar subquery on `inputs_system_load` is the
first matching row's value (`none`, i.e. SQL NULL, when there is no such
row, in which case the equality filter rejects every row). -/

/-- A row of `inputs_system_load_levels`. -/
structure LoadLevelsRow where
  load_zone : String
  timepoint : Nat
  load_component : String
  load_mw : ℚ
  load_levels_scenario_id : Nat
  weather_iteration : Nat
  stage_id : Nat
deriving Repr, DecidableEq

/-- A row of `inputs_temporal`. -/
structure TemporalRow where
  timepoint : Nat
  temporal_scenario_id : Nat
  subproblem_id : Nat
  stage_id : Nat
deriving Repr, DecidableEq

/-- A row of `inputs_geography_load_zones`. -/
structure GeoLoadZoneRow where
  load_zone : String
  load_zone_scenario_id : Nat
deriving Repr, DecidableEq

/-- A row of `inputs_system_load`. -/
structure SystemLoadRow where
  load_scenario_id : Nat
  load_levels_scenario_id : Nat
  load_components_scenario_id : Nat
deriving Repr, DecidableEq

/-- A row of `inputs_system_load_components`. -/
structure LoadComponentsRow where
  load_components_scenario_id : Nat
  load_zone : String
  load_component : String
  load_level_default : Option ℚ
deriving Repr, DecidableEq

/-- The database tables the static-load query reads. -/
structure LoadDb where
  inputs_system_load_levels : List LoadLevelsRow
  inputs_temporal : List TemporalRow
  inputs_geography_load_zones : List GeoLoadZoneRow
  inputs_system_load : List SystemLoadRow
  inputs_system_load_components : List LoadComponentsRow

/-- The subscenario ids of the scenario (the fields of the `SubScenarios`
object the query reads). -/
structure SubScenarios where
  TEMPORAL_SCENARIO_ID : Nat
  LOAD_ZONE_SCENARIO_ID : Nat
  LOAD_SCENARIO_ID : Nat
deriving Repr, DecidableEq

/-- The `relevant_timepoints` derived table: timepoints of the scenario's
temporal subscenario for the given subproblem and stage. -/
def relevant_timepoints (db : LoadDb) (subscenarios : SubScenarios)
    (subproblem stage : Nat) : List Nat :=
  (db.inputs_temporal.filter fun r =>
    r.temporal_scenario_id = subscenarios.TEMPORAL_SCENARIO_ID ∧
      r.subproblem_id = subproblem ∧ r.stage_id = stage).map
    fun r => r.timepoint

/-- The `relevant_load_zones` derived table: load zones of the scenario's
load-zone subscenario. -/
def relevant_load_zones (db : LoadDb) (subscenarios : SubScenarios) :
    List String :=
  (db.inputs_geography_load_zones.filter fun r =>
    r.load_zone_scenario_id = subscenarios.LOAD_ZONE_SCENARIO_ID).map
    fun r => r.load_zone

/-- The scalar subquery
`SELECT load_levels_scenario_id FROM inputs_system_load WHERE
load_scenario_id = ...`: first matching row's value, `none` for NULL. -/
def scenario_load_levels_id (db : LoadDb) (subscenarios : SubScenarios) :
    Option Nat :=
  (db.inputs_system_load.find? fun r =>
    r.load_scenario_id = subscenarios.LOAD_SCENARIO_ID).map
    fun r => r.load_levels_scenario_id

/-- The scalar subquery for `load_components_scenario_id` of the
scenario's `load_scenario_id`. -/
def scenario_load_components_id (db : LoadDb) (subscenarios : SubScenarios) :
    Option Nat :=
  (db.inputs_system_load.find? fun r =>
    r.load_scenario_id = subscenarios.LOAD_SCENARIO_ID).map
    fun r => r.load_components_scenario_id

/-- The `(load_zone, load_component) IN (SELECT ...)` membership test of
the main query. -/
def load_component_pair_in_subscenario (db : LoadDb)
    (subscenarios : SubScenarios) (lz cmp : String) : Bool :=
  db.inputs_system_load_components.any fun r =>
    scenario_load_components_id db subscenarios = some r.load_components_scenario_id ∧
      r.load_zone = lz ∧ r.load_component = cmp

/-- The main `loads` query of
`static_load_requirement.get_inputs_from_database`: join
`inputs_system_load_levels` with the relevant timepoints and load zones,
filter on the scenario's `load_levels_scenario_id`, the load-component
subscenario membership, the weather iteration, and the stage, and project
`(load_zone, timepoint, load_component, load_mw)`. -/
def get_loads_from_database (db : LoadDb) (subscenarios : SubScenarios)
    (weather_iteration subproblem stage : Nat) :
    List (String × Nat × String × ℚ) :=
  db.inputs_system_load_levels.flatMap fun r =>
    (relevant_timepoints db subscenarios subproblem stage).flatMap fun tp =>
      (relevant_load_zones db subscenarios).flatMap fun z =>
        if r.timepoint = tp ∧ r.load_zone = z ∧
            scenario_load_levels_id db subscenarios =
              some r.load_levels_scenario_id ∧
            load_component_pair_in_subscenario db subscenarios r.load_zone
              r.load_component = true ∧
            r.weather_iteration = weather_iteration ∧ r.stage_id = stage then
          [(r.load_zone, r.timepoint, r.load_component, r.load_mw)]
        else []

/-! ## load_system_prm_requirement (C8)

Embedding of `db/csvs_to_db_utilities/load_system_prm.py`.  The pandas
dataframe `data_input` is a list of rows; `.unique()` keeps the distinct
values in first-appearance order; `.loc[cond].iloc[0]` is the first row
satisfying the condition. -/

/-- A row of the PRM requirement CSV (`data_input`). -/
structure PrmRow where
  prm_requirement_scenario_id : Int
  prm_zone : String
  period : Int
  prm_requirement_mw : ℚ
deriving Repr, DecidableEq

/-- Model of `pandas.Series.unique`: the distinct values in order of first
appearance. -/
def pdUnique {α : Type} [DecidableEq α] (xs : List α) : List α :=
  xs.foldl (fun acc x => if x ∈ acc then acc else acc ++ [x]) []

/-- The inner dictionary for one zone built by
`load_system_prm_requirement`: for each distinct period of the zone's rows
(first-appearance order), the `prm_requirement_mw` of the first row with
that period (`.iloc[0]`), value cast to float and period to int. -/
def zone_requirement_dict (zoneRows : List PrmRow) : List (Int × ℚ) :=
  (pdUnique (zoneRows.map fun r => r.period)).map fun p =>
    (p,
      match zoneRows.find? fun r => r.period = p with
      | some r => r.prm_requirement_mw
      | none => 0)

/-- The `zone_period_requirement` dictionary built by
`load_system_prm_requirement` for one subscenario id: filter `data_input`
to the subscenario, then for each distinct zone (first-appearance order)
build the period dictionary from that zone's rows. -/
def zone_period_requirement (data_input : List PrmRow) (sc_id : Int) :
    List (String × List (Int × ℚ)) :=
  let data_input_subscenario :=
    data_input.filter fun r => r.prm_requirement_scenario_id = sc_id
  (pdUnique (data_input_subscenario.map fun r => r.prm_zone)).map fun z =>
    (z, zone_requirement_dict
      (data_input_subscenario.filter fun r => r.prm_zone = z))

/-- Dictionary lookup in the built `zone_period_requirement`:
`zone_period_requirement[z][p]`. -/
def prm_lookup (data_input : List PrmRow) (sc_id : Int) (z : String)
    (p : Int) : Option ℚ :=
  match (zone_period_requirement data_input sc_id).find? fun e => e.1 = z with
  | none => none
  | some (_, periods) =>
      match periods.find? fun e => e.1 = p with
      | none => none
      | some (_, mw) => some mw

/-- The behaviour the claim describes, written directly from the spec's
words: the first row of the subscenario matching `(z, p)` provides the
value. -/
def first_matching_requirement (data_input : List PrmRow) (sc_id : Int)
    (z : String) (p : Int) : Option ℚ :=
  (data_input.find? fun r =>
    r.prm_requirement_scenario_id = sc_id ∧ r.prm_zone = z ∧
      r.period = p).map fun r => r.prm_requirement_mw

/-! ## Theorems -/

/-- Helper: the per-row loop body of `determine_dynamic_components` never
touches `required_reserve_modules`. -/
theorem processResourceRow_required_reserve_modules (d : DynamicComponents)
    (row : ResourceRow) :
    (processResourceRow d row).required_reserve_modules =
      d.required_reserve_modules := by
  unfold processResourceRow
  dsimp only
  split <;> split <;> rfl

/-- Helper: folding the loop body over any rows leaves
`required_reserve_modules` unchanged. -/
theorem foldl_processResourceRow_required_reserve_modules
    (rows : List ResourceRow) :
    ∀ d : DynamicComponents,
      (rows.foldl processResourceRow d).required_reserve_modules =
        d.required_reserve_modules := by
  induction rows with
  | nil => intro d; rfl
  | cons r rs ih =>
      intro d
      rw [List.foldl_cons, ih, processResourceRow_required_reserve_modules]

/-- C1: each module's dynamic-component registration appends exactly its
own symbolic name to the end of the shared list, leaving every previously
registered name in place: `record_dynamic_components` appends
`"LZ_Load_in_Tmp"` to `d.load_balance_consumption_components`, and
`determine_dynamic_components` appends `"lf_reserves_down"` to
`d.required_reserve_modules` (whatever the `resources.tab` rows are). -/
theorem registration_appends_single_name (d : DynamicComponents)
    (rows : List ResourceRow) :
    (record_dynamic_components d).load_balance_consumption_components =
      d.load_balance_consumption_components ++ ["LZ_Load_in_Tmp"] ∧
    (determine_dynamic_components d rows).required_reserve_modules =
      d.required_reserve_modules ++ ["lf_reserves_down"] := by
  refine ⟨rfl, ?_⟩
  unfold determine_dynamic_components
  rw [foldl_processResourceRow_required_reserve_modules]

/-- C2 counterexample: the `carbon_cap_zones` loader's input path, built
from `(scenario_directory, horizon, stage)`, is not of the spec-claimed
shape for any choice of the five temporal index values: its path has five
components while the claimed shape has eight. -/
theorem carbon_cap_path_not_five_index_shape :
    ¬ ∃ w h a sp st : String,
      carbon_cap_zones.load_model_data_path "scen" "horizon1" "stage1" =
        specClaimedPath "scen" w h a sp st "carbon_cap_zones.tab" := by
  rintro ⟨w, h, a, sp, st, heq⟩
  simpa [carbon_cap_zones.load_model_data_path, specClaimedPath] using
    congrArg List.length heq

/-- C2 amended: only the static-load loader resolves its input files under
the full five-component temporal index (weather, hydro, availability
iterations, subproblem, stage); `carbon_cap_zones.load_model_data` indexes
its directory only by `(horizon, stage)` and
`exogenous.load_module_specific_data` only by `(subproblem, stage)`, and
neither of those two paths matches the five-index shape for any index
values. -/
theorem loader_path_index_components (sd w h a sp st hz : String) :
    static_load_requirement.load_mw_path sd w h a sp st =
      specClaimedPath sd w h a sp st "load_mw.tab" ∧
    static_load_requirement.load_level_defaults_path sd w h a sp st =
      specClaimedPath sd w h a sp st "load_level_defaults.tab" ∧
    carbon_cap_zones.load_model_data_path sd hz st =
      sd :: [hz, st] ++ ["inputs", "carbon_cap_zones.tab"] ∧
    exogenous.load_module_specific_data_path sd sp st =
      sd :: [sp, st] ++ ["inputs", "project_availability_exogenous.tab"] ∧
    (∀ w' h' a' sp' st' : String,
      carbon_cap_zones.load_model_data_path sd hz st ≠
        specClaimedPath sd w' h' a' sp' st' "carbon_cap_zones.tab") ∧
    (∀ w' h' a' sp' st' : String,
      exogenous.load_module_specific_data_path sd sp st ≠
        specClaimedPath sd w' h' a' sp' st'
          "project_availability_exogenous.tab") := by
  refine ⟨rfl, rfl, rfl, rfl, ?_, ?_⟩ <;>
    · intro w' h' a' sp' st' heq
      simpa [carbon_cap_zones.load_model_data_path,
        exogenous.load_module_specific_data_path, specClaimedPath] using
        congrArg List.length heq

/-- A concrete transmission-target model instance used to witness the
transmission-target theorems: one indexed element, violation allowed,
positive-direction target `10` (nonzero), negative-direction target `0`. -/
def txModelExample : TxModel where
  TRANSMISSION_TARGET_ZONE_BLN_TYPE_HRZS_WITH_TRANSMISSION_TARGET :=
    [("z1", "year", 1)]
  transmission_target_allow_violation := fun _ => true
  transmission_target_pos_dir_min_mwh := fun _ => 10
  transmission_target_neg_dir_min_mwh := fun _ => 0
  Transmission_Target_Shortage_Pos_Dir_MWh := fun _ => 2
  Transmission_Target_Shortage_Neg_Dir_MWh := fun _ => 3
  Total_Transmission_Target_Energy_Pos_Dir_MWh := fun _ => 8
  Total_Transmission_Target_Energy_Neg_Dir_MWh := fun _ => 5

/-- C3: for every index in the target set, the positive-direction
constraint is skipped exactly when the positive-direction target is zero
and otherwise is exactly `Total + ShortageExpression ≥ target`;
symmetrically for the negative direction; and each shortage expression is
the corresponding nonnegative shortage variable when the zone allows
violation and `0` otherwise. -/
theorem transmission_target_constraint_added_iff_nonzero (mod : TxModel)
    (z bt : String) (hz : Nat)
    (hmem : (z, bt, hz) ∈
      mod.TRANSMISSION_TARGET_ZONE_BLN_TYPE_HRZS_WITH_TRANSMISSION_TARGET) :
    (Transmission_Target_Pos_Dir_Constraint mod (z, bt, hz) =
        PyomoConstraint.Skip ↔
      mod.transmission_target_pos_dir_min_mwh (z, bt, hz) = 0) ∧
    (mod.transmission_target_pos_dir_min_mwh (z, bt, hz) ≠ 0 →
      Transmission_Target_Pos_Dir_Constraint mod (z, bt, hz) =
        PyomoConstraint.GeqIneq
          (mod.Total_Transmission_Target_Energy_Pos_Dir_MWh (z, bt, hz) +
            Transmission_Target_Shortage_Pos_Dir_MWh_Expression mod
              (z, bt, hz))
          (mod.transmission_target_pos_dir_min_mwh (z, bt, hz))) ∧
    (Transmission_Target_Neg_Dir_Constraint mod (z, bt, hz) =
        PyomoConstraint.Skip ↔
      mod.transmission_target_neg_dir_min_mwh (z, bt, hz) = 0) ∧
    (mod.transmission_target_neg_dir_min_mwh (z, bt, hz) ≠ 0 →
      Transmission_Target_Neg_Dir_Constraint mod (z, bt, hz) =
        PyomoConstraint.GeqIneq
          (mod.Total_Transmission_Target_Energy_Neg_Dir_MWh (z, bt, hz) +
            Transmission_Target_Shortage_Neg_Dir_MWh_Expression mod
              (z, bt, hz))
          (mod.transmission_target_neg_dir_min_mwh (z, bt, hz))) ∧
    (Transmission_Target_Shortage_Pos_Dir_MWh_Expression mod (z, bt, hz) =
      if mod.transmission_target_allow_violation z then
        mod.Transmission_Target_Shortage_Pos_Dir_MWh (z, bt, hz)
      else 0) ∧
    (Transmission_Target_Shortage_Neg_Dir_MWh_Expression mod (z, bt, hz) =
      if mod.transmission_target_allow_violation z then
        mod.Transmission_Target_Shortage_Neg_Dir_MWh (z, bt, hz)
      else 0) := by
  clear hmem
  unfold Transmission_Target_Pos_Dir_Constraint
    Transmission_Target_Neg_Dir_Constraint transmission_target_pos_dir_rule
    transmission_target_neg_dir_rule
    Transmission_Target_Shortage_Pos_Dir_MWh_Expression
    Transmission_Target_Shortage_Neg_Dir_MWh_Expression
    violation_pos_dir_expression_rule violation_neg_dir_expression_rule
  refine ⟨?_, ?_, ?_, ?_, rfl, rfl⟩ <;> dsimp only <;> split <;>
    simp_all

/-- Witness for C3 at the concrete model `txModelExample` and its index
`("z1", "year", 1)`. -/
theorem transmission_target_constraint_added_iff_nonzero_witness :
    (Transmission_Target_Pos_Dir_Constraint txModelExample ("z1", "year", 1) =
        PyomoConstraint.Skip ↔
      txModelExample.transmission_target_pos_dir_min_mwh ("z1", "year", 1) =
        0) ∧
    (txModelExample.transmission_target_pos_dir_min_mwh ("z1", "year", 1) ≠
        0 →
      Transmission_Target_Pos_Dir_Constraint txModelExample
          ("z1", "year", 1) =
        PyomoConstraint.GeqIneq
          (txModelExample.Total_Transmission_Target_Energy_Pos_Dir_MWh
              ("z1", "year", 1) +
            Transmission_Target_Shortage_Pos_Dir_MWh_Expression txModelExample
              ("z1", "year", 1))
          (txModelExample.transmission_target_pos_dir_min_mwh
            ("z1", "year", 1))) ∧
    (Transmission_Target_Neg_Dir_Constraint txModelExample ("z1", "year", 1) =
        PyomoConstraint.Skip ↔
      txModelExample.transmission_target_neg_dir_min_mwh ("z1", "year", 1) =
        0) ∧
    (txModelExample.transmission_target_neg_dir_min_mwh ("z1", "year", 1) ≠
        0 →
      Transmission_Target_Neg_Dir_Constraint txModelExample
          ("z1", "year", 1) =
        PyomoConstraint.GeqIneq
          (txModelExample.Total_Transmission_Target_Energy_Neg_Dir_MWh
              ("z1", "year", 1) +
            Transmission_Target_Shortage_Neg_Dir_MWh_Expression txModelExample
              ("z1", "year", 1))
          (txModelExample.transmission_target_neg_dir_min_mwh
            ("z1", "year", 1))) ∧
    (Transmission_Target_Shortage_Pos_Dir_MWh_Expression txModelExample
        ("z1", "year", 1) =
      if txModelExample.transmission_target_allow_violation "z1" then
        txModelExample.Transmission_Target_Shortage_Pos_Dir_MWh
          ("z1", "year", 1)
      else 0) ∧
    (Transmission_Target_Shortage_Neg_Dir_MWh_Expression txModelExample
        ("z1", "year", 1) =
      if txModelExample.transmission_target_allow_violation "z1" then
        txModelExample.Transmission_Target_Shortage_Neg_Dir_MWh
          ("z1", "year", 1)
      else 0) :=
  transmission_target_constraint_added_iff_nonzero txModelExample "z1" "year"
    1 (by simp [txModelExample])

/-- C7: in `transmission_target_balance.export_results` the division by
the target is guarded in both directions: for every index in the target
set the fraction-of-target-met computation succeeds (never divides by
zero), yielding `1` when the target is `0` and delivered energy over the
target otherwise. -/
theorem export_results_fraction_division_guarded (mod : TxModel)
    (idx : TxIdx)
    (hmem : idx ∈
      mod.TRANSMISSION_TARGET_ZONE_BLN_TYPE_HRZS_WITH_TRANSMISSION_TARGET) :
    fraction_of_transmission_target_pos_dir_min_met mod idx =
      Except.ok
        (if mod.transmission_target_pos_dir_min_mwh idx = 0 then 1
         else
           mod.Total_Transmission_Target_Energy_Pos_Dir_MWh idx /
             mod.transmission_target_pos_dir_min_mwh idx) ∧
    fraction_of_transmission_target_neg_dir_met mod idx =
      Except.ok
        (if mod.transmission_target_neg_dir_min_mwh idx = 0 then 1
         else
           mod.Total_Transmission_Target_Energy_Neg_Dir_MWh idx /
             mod.transmission_target_neg_dir_min_mwh idx) := by
  clear hmem
  constructor <;>
    · simp only [fraction_of_transmission_target_pos_dir_min_met,
        fraction_of_transmission_target_neg_dir_met, checkedDiv]
      split <;> simp_all

/-- Witness for C7 at the concrete model `txModelExample` (nonzero
positive-direction target, zero negative-direction target) and its index
`("z1", "year", 1)`. -/
theorem export_results_fraction_division_guarded_witness :
    fraction_of_transmission_target_pos_dir_min_met txModelExample
        ("z1", "year", 1) =
      Except.ok
        (if txModelExample.transmission_target_pos_dir_min_mwh
            ("z1", "year", 1) = 0 then 1
         else
           txModelExample.Total_Transmission_Target_Energy_Pos_Dir_MWh
               ("z1", "year", 1) /
             txModelExample.transmission_target_pos_dir_min_mwh
               ("z1", "year", 1)) ∧
    fraction_of_transmission_target_neg_dir_met txModelExample
        ("z1", "year", 1) =
      Except.ok
        (if txModelExample.transmission_target_neg_dir_min_mwh
            ("z1", "year", 1) = 0 then 1
         else
           txModelExample.Total_Transmission_Target_Energy_Neg_Dir_MWh
               ("z1", "year", 1) /
             txModelExample.transmission_target_neg_dir_min_mwh
               ("z1", "year", 1)) :=
  export_results_fraction_division_guarded txModelExample ("z1", "year", 1)
    (by simp [txModelExample])

/-- Helper: `find?` is the head of `filter`. -/
theorem find?_eq_head?_filter {α : Type} (p : α → Bool) (l : List α) :
    l.find? p = (l.filter p).head? := by
  induction l with
  | nil => rfl
  | cons a l ih =>
      by_cases h : p a = true
      · rw [List.find?_cons_of_pos l h, List.filter_cons_of_pos h]
        rfl
      · rw [List.find?_cons_of_neg l h, List.filter_cons_of_neg h, ih]

/-- Helper: filtering one zone's row block of `export_results_data` for a
timepoint that does not occur in it yields nothing. -/
theorem export_row_block_filter_not_mem (loadVal : String → Nat → ℚ)
    (lz' lz : String) (tmp : Nat) (TMPS : List Nat) (h : tmp ∉ TMPS) :
    (TMPS.map fun t => (lz', t, loadVal lz' t)).filter
      (fun row => row.1 == lz && row.2.1 == tmp) = [] := by
  refine List.filter_eq_nil_iff.mpr ?_
  intro row hrow
  rcases List.mem_map.mp hrow with ⟨t, ht, rfl⟩
  simp only [Bool.and_eq_true, beq_iff_eq, not_and]
  intro _ hteq
  exact h (hteq ▸ ht)

/-- Helper: filtering a row block built for a different zone yields
nothing. -/
theorem export_row_block_filter_other_zone (loadVal : String → Nat → ℚ)
    (lz' lz : String) (tmp : Nat) (TMPS : List Nat) (h : lz' ≠ lz) :
    (TMPS.map fun t => (lz', t, loadVal lz' t)).filter
      (fun row => row.1 == lz && row.2.1 == tmp) = [] := by
  refine List.filter_eq_nil_iff.mpr ?_
  intro row hrow
  rcases List.mem_map.mp hrow with ⟨t, ht, rfl⟩
  simp only [Bool.and_eq_true, beq_iff_eq, not_and]
  intro hlzeq
  exact absurd hlzeq h

/-- Helper: `export_results_data` on a zone-list cons splits into that
zone's row block followed by the rest. -/
theorem export_results_data_cons (l : String) (ls : List String)
    (TMPS : List Nat) (loadVal : String → Nat → ℚ) :
    export_results_data (l :: ls) TMPS loadVal =
      (TMPS.map fun t => (l, t, loadVal l t)) ++
        export_results_data ls TMPS loadVal := by
  simp [export_results_data]

/-- Helper: filtering one zone's own row block for a timepoint occurring
once yields exactly that timepoint's row. -/
theorem export_row_block_filter_own_zone (loadVal : String → Nat → ℚ)
    (lz : String) (tmp : Nat) (TMPS : List Nat) (hnd : TMPS.Nodup)
    (hmem : tmp ∈ TMPS) :
    (TMPS.map fun t => (lz, t, loadVal lz t)).filter
      (fun row => row.1 == lz && row.2.1 == tmp) =
      [(lz, tmp, loadVal lz tmp)] := by
  induction TMPS with
  | nil => cases hmem
  | cons t ts ih =>
      rcases List.nodup_cons.mp hnd with ⟨htnotmem, hndts⟩
      rcases List.mem_cons.mp hmem with heq | hmemts
      · subst heq
        rw [List.map_cons, List.filter_cons_of_pos (by simp),
          export_row_block_filter_not_mem loadVal lz lz tmp ts htnotmem]
      · have hne : t ≠ tmp := fun heq => htnotmem (heq ▸ hmemts)
        rw [List.map_cons, List.filter_cons_of_neg (by simp [hne])]
        exact ih hndts hmemts

/-- Helper: filtering the whole `export_results_data` when the target
zone is absent from the remaining zones yields nothing. -/
theorem export_results_data_filter_not_mem (TMPS : List Nat)
    (loadVal : String → Nat → ℚ) (lz : String) (tmp : Nat)
    (LOAD_ZONES : List String) (h : lz ∉ LOAD_ZONES) :
    (export_results_data LOAD_ZONES TMPS loadVal).filter
      (fun row => row.1 == lz && row.2.1 == tmp) = [] := by
  induction LOAD_ZONES with
  | nil => rfl
  | cons l ls ih =>
      have hne : l ≠ lz := fun heq => h (heq ▸ List.mem_cons_self l ls)
      have hnotmem : lz ∉ ls := fun hmem => h (List.mem_cons_of_mem l hmem)
      rw [export_results_data_cons, List.filter_append,
        export_row_block_filter_other_zone loadVal l lz tmp TMPS hne,
        ih hnotmem]
      rfl

/-- Helper: the rows of `export_results_data` with index `(lz, tmp)` are
exactly the single row `(lz, tmp, loadVal lz tmp)`, when the zone and
timepoint lists are duplicate-free and contain `lz` and `tmp`. -/
theorem export_results_data_filter_single (LOAD_ZONES : List String)
    (TMPS : List Nat) (loadVal : String → Nat → ℚ) (lz : String) (tmp : Nat)
    (hlznd : LOAD_ZONES.Nodup) (htmpnd : TMPS.Nodup)
    (hlzmem : lz ∈ LOAD_ZONES) (htmpmem : tmp ∈ TMPS) :
    (export_results_data LOAD_ZONES TMPS loadVal).filter
      (fun row => row.1 == lz && row.2.1 == tmp) =
      [(lz, tmp, loadVal lz tmp)] := by
  induction LOAD_ZONES with
  | nil => cases hlzmem
  | cons l ls ih =>
      rcases List.nodup_cons.mp hlznd with ⟨hlnotmem, hndls⟩
      rw [export_results_data_cons, List.filter_append]
      rcases List.mem_cons.mp hlzmem with heq | hmemls
      · subst heq
        rw [export_row_block_filter_own_zone loadVal lz tmp TMPS htmpnd
          htmpmem,
          export_results_data_filter_not_mem TMPS loadVal lz tmp ls hlnotmem]
        rfl
      · have hne : l ≠ lz := fun heq => hlnotmem (heq ▸ hmemls)
        rw [export_row_block_filter_other_zone loadVal l lz tmp TMPS hne,
          ih hndls hmemls]
        rfl

/-- Helper: the number of rows of `export_results_data` is the product of
the two index-set sizes. -/
theorem export_results_data_length (LOAD_ZONES : List String)
    (TMPS : List Nat) (loadVal : String → Nat → ℚ) :
    (export_results_data LOAD_ZONES TMPS loadVal).length =
      LOAD_ZONES.length * TMPS.length := by
  induction LOAD_ZONES with
  | nil => simp [export_results_data]
  | cons l ls ih =>
      rw [export_results_data_cons, List.length_append, List.length_map, ih,
        List.length_cons]
      ring

/-- C4: `static_load_requirement.export_results` produces exactly one
results row per `(lz, tmp)` in `LOAD_ZONES × TMPS` — the row whose
`static_load_mw` entry is `LZ_Load_in_Tmp[lz, tmp]` — every row comes from
such a pair, the total row count is the product of the set sizes, and
merging into the shared load-zone/timepoint dataframe stores that value at
index `(lz, tmp)`. -/
theorem export_results_one_row_per_zone_timepoint (LOAD_ZONES : List String)
    (TMPS : List Nat) (loadVal : String → Nat → ℚ)
    (hlznd : LOAD_ZONES.Nodup) (htmpnd : TMPS.Nodup) (lz : String)
    (tmp : Nat) (hlzmem : lz ∈ LOAD_ZONES) (htmpmem : tmp ∈ TMPS) :
    (export_results_data LOAD_ZONES TMPS loadVal).length =
      LOAD_ZONES.length * TMPS.length ∧
    (export_results_data LOAD_ZONES TMPS loadVal).filter
        (fun row => row.1 == lz && row.2.1 == tmp) =
      [(lz, tmp, loadVal lz tmp)] ∧
    (∀ row ∈ export_results_data LOAD_ZONES TMPS loadVal,
      row.1 ∈ LOAD_ZONES ∧ row.2.1 ∈ TMPS ∧
        row.2.2 = loadVal row.1 row.2.1) ∧
    updated_load_zone_tmp_df (export_results_data LOAD_ZONES TMPS loadVal)
      lz tmp = some (loadVal lz tmp) := by
  have hfilter := export_results_data_filter_single LOAD_ZONES TMPS loadVal
    lz tmp hlznd htmpnd hlzmem htmpmem
  refine ⟨export_results_data_length LOAD_ZONES TMPS loadVal, hfilter, ?_, ?_⟩
  · intro row hrow
    rcases List.mem_flatMap.mp hrow with ⟨lz', hlz', hrow'⟩
    rcases List.mem_map.mp hrow' with ⟨tmp', htmp', rfl⟩
    exact ⟨hlz', htmp', rfl⟩
  · unfold updated_load_zone_tmp_df create_results_df
    rw [find?_eq_head?_filter, hfilter]
    rfl

/-- Witness for C4 on a concrete two-zone, two-timepoint model whose
expression valuation is the timepoint itself. -/
theorem export_results_one_row_per_zone_timepoint_witness :
    (export_results_data ["z1", "z2"] [1, 2] fun _ t => (t : ℚ)).length =
        2 * 2 ∧
    ((export_results_data ["z1", "z2"] [1, 2] fun _ t => (t : ℚ)).filter
        fun row => row.1 == "z1" && row.2.1 == 2) = [("z1", 2, (2 : ℚ))] ∧
    updated_load_zone_tmp_df
        (export_results_data ["z1", "z2"] [1, 2] fun _ t => (t : ℚ)) "z1" 2 =
      some 2 := by
  have h := export_results_one_row_per_zone_timepoint ["z1", "z2"] [1, 2]
    (fun _ t => (t : ℚ)) (by decide) (by decide) "z1" 2 (by decide)
    (by decide)
  exact ⟨h.1, h.2.1, h.2.2.2⟩

/-- C5: every row returned by
`static_load_requirement.get_inputs_from_database` comes from an
`inputs_system_load_levels` row whose timepoint belongs to the scenario's
temporal subscenario for the given subproblem and stage, whose load zone
belongs to the scenario's load-zone subscenario, whose
`load_levels_scenario_id` is the one referenced by the scenario's
`load_scenario_id`, whose `(load_zone, load_component)` pair is listed in
the load-components subscenario referenced by the same
`load_scenario_id`, and which carries the given weather iteration and
stage. -/
theorem get_loads_rows_within_scenario_filters (db : LoadDb)
    (subscenarios : SubScenarios)
    (weather_iteration subproblem stage : Nat)
    (out : String × Nat × String × ℚ)
    (hout : out ∈ get_loads_from_database db subscenarios weather_iteration
      subproblem stage) :
    ∃ r ∈ db.inputs_system_load_levels,
      out = (r.load_zone, r.timepoint, r.load_component, r.load_mw) ∧
      (∃ trow ∈ db.inputs_temporal,
        trow.timepoint = r.timepoint ∧
        trow.temporal_scenario_id = subscenarios.TEMPORAL_SCENARIO_ID ∧
        trow.subproblem_id = subproblem ∧ trow.stage_id = stage) ∧
      (∃ g ∈ db.inputs_geography_load_zones,
        g.load_zone = r.load_zone ∧
        g.load_zone_scenario_id = subscenarios.LOAD_ZONE_SCENARIO_ID) ∧
      scenario_load_levels_id db subscenarios =
        some r.load_levels_scenario_id ∧
      (∃ comp ∈ db.inputs_system_load_components,
        scenario_load_components_id db subscenarios =
          some comp.load_components_scenario_id ∧
        comp.load_zone = r.load_zone ∧
        comp.load_component = r.load_component) ∧
      r.weather_iteration = weather_iteration ∧ r.stage_id = stage := by
  rcases List.mem_flatMap.mp hout with ⟨r, hr, hout1⟩
  rcases List.mem_flatMap.mp hout1 with ⟨tp, htp, hout2⟩
  rcases List.mem_flatMap.mp hout2 with ⟨z, hz, hout3⟩
  by_cases hc : r.timepoint = tp ∧ r.load_zone = z ∧
      scenario_load_levels_id db subscenarios =
        some r.load_levels_scenario_id ∧
      load_component_pair_in_subscenario db subscenarios r.load_zone
        r.load_component = true ∧
      r.weather_iteration = weather_iteration ∧ r.stage_id = stage
  · rw [if_pos hc] at hout3
    rcases hc with ⟨htpeq, _hzeq, hlls, hpair, hwi, hst⟩
    refine ⟨r, hr, List.mem_singleton.mp hout3, ?_, ?_, hlls, ?_, hwi, hst⟩
    · unfold relevant_timepoints at htp
      rcases List.mem_map.mp htp with ⟨trow, htrow, rfl⟩
      rcases List.mem_filter.mp htrow with ⟨htrowmem, hcond⟩
      simp only [decide_eq_true_eq] at hcond
      exact ⟨trow, htrowmem, htpeq.symm, hcond.1, hcond.2.1, hcond.2.2⟩
    · unfold relevant_load_zones at hz
      rcases List.mem_map.mp hz with ⟨g, hg, rfl⟩
      rcases List.mem_filter.mp hg with ⟨hgmem, hgcond⟩
      simp only [decide_eq_true_eq] at hgcond
      exact ⟨g, hgmem, _hzeq.symm, hgcond⟩
    · unfold load_component_pair_in_subscenario at hpair
      rcases List.any_eq_true.mp hpair with ⟨comp, hcompmem, hcompcond⟩
      simp only [decide_eq_true_eq] at hcompcond
      exact ⟨comp, hcompmem, hcompcond.1, hcompcond.2.1, hcompcond.2.2⟩
  · rw [if_neg hc] at hout3
    cases hout3

/-- A concrete database instance used to witness the query theorem: one
load-levels row that passes every filter of the scenario below. -/
def loadDbExample : LoadDb where
  inputs_system_load_levels :=
    [{ load_zone := "z1", timepoint := 1, load_component := "all",
       load_mw := 100, load_levels_scenario_id := 5, weather_iteration := 0,
       stage_id := 1 }]
  inputs_temporal :=
    [{ timepoint := 1, temporal_scenario_id := 2, subproblem_id := 1,
       stage_id := 1 }]
  inputs_geography_load_zones :=
    [{ load_zone := "z1", load_zone_scenario_id := 3 }]
  inputs_system_load :=
    [{ load_scenario_id := 4, load_levels_scenario_id := 5,
       load_components_scenario_id := 6 }]
  inputs_system_load_components :=
    [{ load_components_scenario_id := 6, load_zone := "z1",
       load_component := "all", load_level_default := none }]

/-- The scenario's subscenario ids matching `loadDbExample`. -/
def subscenariosExample : SubScenarios where
  TEMPORAL_SCENARIO_ID := 2
  LOAD_ZONE_SCENARIO_ID := 3
  LOAD_SCENARIO_ID := 4

/-- Witness for C5: the row `("z1", 1, "all", 100)` returned on
`loadDbExample` satisfies all the scenario filters. -/
theorem get_loads_rows_within_scenario_filters_witness :
    ∃ r ∈ loadDbExample.inputs_system_load_levels,
      ("z1", 1, "all", (100 : ℚ)) =
        (r.load_zone, r.timepoint, r.load_component, r.load_mw) ∧
      (∃ trow ∈ loadDbExample.inputs_temporal,
        trow.timepoint = r.timepoint ∧
        trow.temporal_scenario_id = subscenariosExample.TEMPORAL_SCENARIO_ID ∧
        trow.subproblem_id = 1 ∧ trow.stage_id = 1) ∧
      (∃ g ∈ loadDbExample.inputs_geography_load_zones,
        g.load_zone = r.load_zone ∧
        g.load_zone_scenario_id = subscenariosExample.LOAD_ZONE_SCENARIO_ID) ∧
      scenario_load_levels_id loadDbExample subscenariosExample =
        some r.load_levels_scenario_id ∧
      (∃ comp ∈ loadDbExample.inputs_system_load_components,
        scenario_load_components_id loadDbExample subscenariosExample =
          some comp.load_components_scenario_id ∧
        comp.load_zone = r.load_zone ∧
        comp.load_component = r.load_component) ∧
      r.weather_iteration = 0 ∧ r.stage_id = 1 :=
  get_loads_rows_within_scenario_filters loadDbExample subscenariosExample 0
    1 1 ("z1", 1, "all", 100) (by decide)

/-- Helper: once the static-load fold is in the error state it stays
there. -/
theorem static_load_foldl_error (mod : StaticLoadModel) (lz : String)
    (tmp : Nat) (l : List (String × Nat × String)) (e : String) :
    l.foldl (static_load_step mod lz tmp) (Except.error e) =
      Except.error e := by
  induction l with
  | nil => rfl
  | cons a l ih => rw [List.foldl_cons]; exact ih

/-- Helper: if any entry of the iterated list has an infinite
`component_static_load_mw`, the static-load fold ends in an error,
whatever the accumulator. -/
theorem static_load_foldl_error_of_infinite (mod : StaticLoadModel)
    (lz : String) (tmp : Nat) (l : List (String × Nat × String)) :
    ∀ acc : Except String ℚ,
      (∃ idx ∈ l, componentIsInfinite mod idx = true) →
      ∃ e, l.foldl (static_load_step mod lz tmp) acc = Except.error e := by
  induction l with
  | nil =>
      rintro acc ⟨idx, hmem, _⟩
      cases hmem
  | cons a l ih =>
      rintro acc ⟨idx, hmem, hinf⟩
      rw [List.foldl_cons]
      rcases List.mem_cons.mp hmem with heq | hmemtail
      · subst heq
        cases acc with
        | error e =>
            exact ⟨e, static_load_foldl_error mod lz tmp l e⟩
        | ok s =>
            unfold componentIsInfinite at hinf
            cases hacc : component_static_load_mw mod idx with
            | error e =>
                have hstep : static_load_step mod lz tmp (Except.ok s) idx =
                    Except.error e := by
                  unfold static_load_step
                  rw [hacc]
                rw [hstep]
                exact ⟨e, static_load_foldl_error mod lz tmp l e⟩
            | ok v =>
                cases v with
                | none =>
                    have hstep : static_load_step mod lz tmp (Except.ok s)
                        idx = Except.error
                          "component_static_load_mw has no value defined" := by
                      unfold static_load_step
                      rw [hacc]
                    rw [hstep]
                    exact ⟨_, static_load_foldl_error mod lz tmp l _⟩
                | some q =>
                    rw [hacc] at hinf
                    simp at hinf
      · exact ih (static_load_step mod lz tmp acc a) ⟨idx, hmemtail, hinf⟩

/-- Helper: when every iterated entry is finite, the static-load fold
returns the accumulator plus the sum of the finite values of the entries
matching `(lz, tmp)`. -/
theorem static_load_foldl_ok (mod : StaticLoadModel) (lz : String)
    (tmp : Nat) (l : List (String × Nat × String)) :
    ∀ q : ℚ,
      (∀ idx ∈ l, componentIsInfinite mod idx = false) →
      l.foldl (static_load_step mod lz tmp) (Except.ok q) =
        Except.ok (q + (((l.filter fun i => i.1 == lz && i.2.1 == tmp).map
          (componentFiniteValue mod)).sum)) := by
  induction l with
  | nil =>
      intro q _
      simp
  | cons a l ih =>
      intro q hfin
      have ha := hfin a (List.mem_cons_self a l)
      have htail : ∀ idx ∈ l, componentIsInfinite mod idx = false :=
        fun idx hidx => hfin idx (List.mem_cons_of_mem a hidx)
      unfold componentIsInfinite at ha
      rw [List.foldl_cons]
      cases hacc : component_static_load_mw mod a with
      | error e => rw [hacc] at ha; cases ha
      | ok v =>
          cases v with
          | none => rw [hacc] at ha; cases ha
          | some w =>
              have hval : componentFiniteValue mod a = w := by
                unfold componentFiniteValue
                rw [hacc]
              have hstep : static_load_step mod lz tmp (Except.ok q) a =
                  if a.1 = lz ∧ a.2.1 = tmp then Except.ok (q + w)
                  else Except.ok q := by
                unfold static_load_step
                rw [hacc]
              by_cases hcond : a.1 = lz ∧ a.2.1 = tmp
              · rw [hstep, if_pos hcond,
                  List.filter_cons_of_pos (by simp [hcond.1, hcond.2]),
                  List.map_cons, List.sum_cons, hval, ih (q + w) htail,
                  add_assoc]
              · rw [hstep, if_neg hcond,
                  List.filter_cons_of_neg (by simpa using hcond),
                  ih q htail]

/-- C6: if any entry of `LOAD_ZONE_TMP_LOAD_CMPNTS` has
`component_static_load_mw` equal to infinity because its load value was
not provided and `load_level_default` was left at its infinite default,
then evaluating `LZ_Load_in_Tmp` raises a `ValueError` at every
`(lz, tmp)` pair; conversely, when no entry is infinite,
`LZ_Load_in_Tmp[lz, tmp]` is the sum of `component_static_load_mw` over
the entries of the set belonging to `(lz, tmp)`, with no error raised. -/
theorem lz_load_in_tmp_error_iff_infinite_component (mod : StaticLoadModel) :
    ((∃ idx ∈ mod.LOAD_ZONE_TMP_LOAD_CMPNTS,
        mod.load_data idx = none ∧
          mod.default_data (idx.1, idx.2.2) = none) →
      ∀ (lz : String) (tmp : Nat),
        ∃ e, LZ_Load_in_Tmp mod lz tmp = Except.error e) ∧
    ((∀ idx ∈ mod.LOAD_ZONE_TMP_LOAD_CMPNTS,
        componentIsInfinite mod idx = false) →
      ∀ (lz : String) (tmp : Nat),
        LZ_Load_in_Tmp mod lz tmp =
          Except.ok
            (((mod.LOAD_ZONE_TMP_LOAD_CMPNTS.filter
                fun i => i.1 == lz && i.2.1 == tmp).map
              (componentFiniteValue mod)).sum)) := by
  constructor
  · rintro ⟨idx, hmem, hdata, hdefault⟩ lz tmp
    have hinf : componentIsInfinite mod idx = true := by
      unfold componentIsInfinite component_static_load_mw
        set_default_and_warn_about_undefined_loads
        check_for_value_and_raise_value_error load_level_default
      rw [hdata, hdefault]
      rfl
    exact static_load_foldl_error_of_infinite mod lz tmp
      mod.LOAD_ZONE_TMP_LOAD_CMPNTS (Except.ok 0) ⟨idx, hmem, hinf⟩
  · intro hfin lz tmp
    unfold LZ_Load_in_Tmp total_static_load_from_components_init
    rw [static_load_foldl_ok mod lz tmp mod.LOAD_ZONE_TMP_LOAD_CMPNTS 0 hfin,
      zero_add]

/-- A concrete static-load model with an undefined entry: the component
`("z2", 1, "c2")` has no provided load and its `load_level_default` was
left at the infinite default, while `("z1", 1, "c1")` is fully defined. -/
def staticLoadModelInfExample : StaticLoadModel where
  LOAD_ZONES := ["z1", "z2"]
  TMPS := [1]
  LOAD_ZONE_TMP_LOAD_CMPNTS := [("z1", 1, "c1"), ("z2", 1, "c2")]
  load_data := fun idx => if idx = ("z1", 1, "c1") then some (some 50)
    else none
  default_data := fun _ => none

/-- A concrete static-load model with every component defined: one via a
provided load, one via a finite `load_level_default`. -/
def staticLoadModelFineExample : StaticLoadModel where
  LOAD_ZONES := ["z1"]
  TMPS := [1]
  LOAD_ZONE_TMP_LOAD_CMPNTS := [("z1", 1, "c1"), ("z1", 1, "c2")]
  load_data := fun idx => if idx = ("z1", 1, "c1") then some (some 30)
    else none
  default_data := fun _ => some 20

/-- Witness for C6: on `staticLoadModelInfExample` the expression
evaluation errors even at `("z1", 1)`, all of whose own components are
defined; on `staticLoadModelFineExample` it returns the component sum. -/
theorem lz_load_in_tmp_error_iff_infinite_component_witness :
    (∃ e, LZ_Load_in_Tmp staticLoadModelInfExample "z1" 1 =
      Except.error e) ∧
    LZ_Load_in_Tmp staticLoadModelFineExample "z1" 1 =
      Except.ok
        (((staticLoadModelFineExample.LOAD_ZONE_TMP_LOAD_CMPNTS.filter
            fun i => i.1 == "z1" && i.2.1 == 1).map
          (componentFiniteValue staticLoadModelFineExample)).sum) :=
  ⟨(lz_load_in_tmp_error_iff_infinite_component
      staticLoadModelInfExample).1
      ⟨("z2", 1, "c2"), by decide, by decide, rfl⟩ "z1" 1,
    (lz_load_in_tmp_error_iff_infinite_component
      staticLoadModelFineExample).2
      (by decide) "z1" 1⟩

/-- Helper: membership in the fold underlying `pdUnique`. -/
theorem pdUnique_foldl_mem {α : Type} [DecidableEq α] (xs : List α) :
    ∀ (acc : List α) (a : α),
      a ∈ xs.foldl (fun acc x => if x ∈ acc then acc else acc ++ [x]) acc ↔
        a ∈ acc ∨ a ∈ xs := by
  induction xs with
  | nil => intro acc a; simp
  | cons x xs ih =>
      intro acc a
      rw [List.foldl_cons, ih]
      by_cases hx : x ∈ acc
      · rw [if_pos hx]
        simp only [List.mem_cons]
        constructor
        · tauto
        · rintro (h | rfl | h) <;> tauto
      · rw [if_neg hx]
        simp only [List.mem_append, List.mem_cons, List.mem_singleton]
        tauto

/-- Helper: `pdUnique` keeps exactly the members of its input. -/
theorem mem_pdUnique {α : Type} [DecidableEq α] (xs : List α) (a : α) :
    a ∈ pdUnique xs ↔ a ∈ xs := by
  unfold pdUnique
  rw [pdUnique_foldl_mem]
  simp

/-- Helper: `find?` with an equality predicate returns the sought element
itself whenever it occurs. -/
theorem find?_eq_self_of_mem {α : Type} [DecidableEq α] (z : α)
    (l : List α) (h : z ∈ l) : (l.find? fun y => y = z) = some z := by
  induction l with
  | nil => cases h
  | cons a l ih =>
      by_cases ha : a = z
      · subst ha
        exact List.find?_cons_of_pos l (by simp)
      · rw [List.find?_cons_of_neg l (by simpa using ha)]
        rcases List.mem_cons.mp h with heq | hmem
        · exact absurd heq.symm ha
        · exact ih hmem

/-- Helper: `find?` on a filtered list is `find?` of the conjunction. -/
theorem find?_filter_and {α : Type} (l : List α) (P Q : α → Prop)
    [DecidablePred P] [DecidablePred Q] :
    ((l.filter fun a => P a).find? fun a => Q a) =
      l.find? fun a => P a ∧ Q a := by
  induction l with
  | nil => rfl
  | cons a l ih =>
      by_cases hP : P a
      · rw [List.filter_cons_of_pos (by simpa using hP)]
        by_cases hQ : Q a
        · rw [List.find?_cons_of_pos _ (by simpa using hQ),
            List.find?_cons_of_pos _ (by simp [hP, hQ])]
        · rw [List.find?_cons_of_neg _ (by simpa using hQ),
            List.find?_cons_of_neg _ (by simp [hP, hQ]), ih]
      · rw [List.filter_cons_of_neg (by simpa using hP),
          List.find?_cons_of_neg _ (by simp [hP]), ih]

/-- C8: the dictionary `load_system_prm_requirement` builds maps each
`(prm_zone, period)` pair of a subscenario's rows to the
`prm_requirement_mw` of the FIRST matching row, and pairs with no row are
absent: looking the built dictionary up coincides everywhere with taking
the first row of the subscenario matching the zone and period, so rows
after the first are silently ignored rather than rejected or allowed to
overwrite the value. -/
theorem prm_requirement_first_row_wins (data_input : List PrmRow)
    (sc_id : Int) (z : String) (p : Int) :
    prm_lookup data_input sc_id z p =
      first_matching_requirement data_input sc_id z p := by
  have h1 : (((data_input.filter fun r =>
        r.prm_requirement_scenario_id = sc_id).filter fun r =>
          r.prm_zone = z).find? fun r => r.period = p) =
      (data_input.filter fun r =>
        r.prm_requirement_scenario_id = sc_id).find? fun r =>
          r.prm_zone = z ∧ r.period = p :=
    find?_filter_and _ _ _
  have h2 : ((data_input.filter fun r =>
        r.prm_requirement_scenario_id = sc_id).find? fun r =>
          r.prm_zone = z ∧ r.period = p) =
      data_input.find? fun r => r.prm_requirement_scenario_id = sc_id ∧
        r.prm_zone = z ∧ r.period = p :=
    find?_filter_and _ _ _
  have hRHS : first_matching_requirement data_input sc_id z p =
      (((data_input.filter fun r =>
          r.prm_requirement_scenario_id = sc_id).filter fun r =>
            r.prm_zone = z).find? fun r => r.period = p).map
        fun r => r.prm_requirement_mw := by
    unfold first_matching_requirement
    rw [h1, h2]
  rw [hRHS]
  simp only [prm_lookup, zone_period_requirement]
  rw [List.find?_map]
  rw [show ((fun e : String × List (Int × ℚ) => decide (e.1 = z)) ∘ fun z' =>
      (z', zone_requirement_dict ((data_input.filter fun r =>
        r.prm_requirement_scenario_id = sc_id).filter fun r =>
          r.prm_zone = z'))) = fun z' => decide (z' = z) from rfl]
  by_cases hz : z ∈ (data_input.filter fun r =>
      r.prm_requirement_scenario_id = sc_id).map fun r => r.prm_zone
  · rw [find?_eq_self_of_mem z _ ((mem_pdUnique _ _).mpr hz)]
    simp only [Option.map_some']
    unfold zone_requirement_dict
    rw [List.find?_map]
    rw [show ((fun e : Int × ℚ => decide (e.1 = p)) ∘ fun p' => (p',
        match ((data_input.filter fun r =>
            r.prm_requirement_scenario_id = sc_id).filter fun r =>
              r.prm_zone = z).find? fun r => r.period = p' with
          | some r => r.prm_requirement_mw
          | none => 0)) = fun p' => decide (p' = p) from rfl]
    by_cases hp : p ∈ ((data_input.filter fun r =>
        r.prm_requirement_scenario_id = sc_id).filter fun r =>
          r.prm_zone = z).map fun r => r.period
    · rw [find?_eq_self_of_mem p _ ((mem_pdUnique _ _).mpr hp)]
      rcases List.mem_map.mp hp with ⟨r0, hr0, hper⟩
      have hsome : (((data_input.filter fun r =>
          r.prm_requirement_scenario_id = sc_id).filter fun r =>
            r.prm_zone = z).find? fun r => r.period = p).isSome := by
        rw [List.find?_isSome]
        exact ⟨r0, hr0, by simpa using hper⟩
      rcases Option.isSome_iff_exists.mp hsome with ⟨r, hr⟩
      simp only [Option.map_some']
      rw [hr]
      rfl
    · have hnone : ((pdUnique (((data_input.filter fun r =>
          r.prm_requirement_scenario_id = sc_id).filter fun r =>
            r.prm_zone = z).map fun r => r.period)).find?
            fun p' => decide (p' = p)) = none := by
        rw [List.find?_eq_none]
        intro y hy hdec
        exact hp ((of_decide_eq_true hdec) ▸ (mem_pdUnique _ _).mp hy)
      have hnone' : (((data_input.filter fun r =>
          r.prm_requirement_scenario_id = sc_id).filter fun r =>
            r.prm_zone = z).find? fun r => r.period = p) = none := by
        rw [List.find?_eq_none]
        intro r hr hdec
        exact hp (List.mem_map.mpr ⟨r, hr, of_decide_eq_true hdec⟩)
      rw [hnone, hnone']
      rfl
  · have hnone : ((pdUnique ((data_input.filter fun r =>
        r.prm_requirement_scenario_id = sc_id).map fun r =>
          r.prm_zone)).find? fun z' => decide (z' = z)) = none := by
      rw [List.find?_eq_none]
      intro y hy hdec
      exact hz ((of_decide_eq_true hdec) ▸ (mem_pdUnique _ _).mp hy)
    have hnone' : (((data_input.filter fun r =>
        r.prm_requirement_scenario_id = sc_id).filter fun r =>
          r.prm_zone = z).find? fun r => r.period = p) = none := by
      rw [List.find?_eq_none]
      intro r hr hdec
      rcases List.mem_filter.mp hr with ⟨hrsub, hrzone⟩
      exact hz (List.mem_map.mpr ⟨r, hrsub, of_decide_eq_true hrzone⟩)
    rw [hnone, hnone']
    rfl

end GridPath
